import Mathlib

/-!
Shallow embedding of the video task lifecycle manager
(`app/services/video_task.py`) of the grok2api-pro repository.

Modelling conventions:
* Python's insertion-ordered `dict` of job id to `VideoTask` is embedded as an
  association list `List (String × VideoTask)` whose key order is insertion
  order; real dicts never hold a key twice, so theorems that need it take a
  `Nodup` hypothesis on the key list.
* `time.time()` reads are passed in as an explicit `now : Nat` parameter, one
  per operation (inside one operation the reads happen in one synchronous
  stretch of the coroutine, with no `await` between them).
* Generated uuid-based ids are passed in as an explicit `newId` parameter.
* The external provider call of the generation worker is modelled as an
  `Except String ProviderResponse` argument: `.error` is the provider call
  raising, `.ok` is the returned response (`content` is
  `choices[0].message.content` or `""` when absent, `media_urls` the
  provider-supplied media url list).
* Machine integers do not occur: all Python ints here are unbounded, and the
  timestamps and progress values are naturals.
-/

/-- One video generation job, mirroring the `VideoTask` dataclass field for
field. Defaults mirror the dataclass's constant defaults; `id` and
`created_at` have generated defaults (uuid / current time) in the source and
are therefore explicit here. -/
structure VideoTask where
  id : String
  model : String := "grok-imagine-0.9"
  status : String := "queued"
  progress : Nat := 0
  created_at : Nat
  completed_at : Option Nat := none
  expires_at : Option Nat := none
  prompt : String := ""
  size : String := "720x1280"
  seconds : String := "4"
  quality : String := "standard"
  error_code : Option String := none
  error_message : Option String := none
  remixed_from_video_id : Option String := none
  video_url : Option String := none
  video_path : Option String := none
  thumbnail_url : Option String := none
  input_reference : Option String := none
  sso_token : Option String := none
  user : Option String := none
deriving DecidableEq, Repr

/-- The job mapping `VideoTaskService._tasks`, as an insertion-ordered
association list. -/
abbrev TaskMap := List (String × VideoTask)

/-- The mutable service state of `VideoTaskService` that the claims touch:
the job mapping, the `_loaded` flag and the `_save_pending` dirty flag. -/
structure ServiceState where
  tasks : TaskMap
  loaded : Bool
  save_pending : Bool
deriving DecidableEq, Repr

/-- Python `self._tasks[k] = v`: replace in place when the key is present
(keeping its position), append otherwise. -/
def dictInsert (m : TaskMap) (k : String) (v : VideoTask) : TaskMap :=
  if m.any (fun p => p.1 == k) then
    m.map (fun p => if p.1 == k then (k, v) else p)
  else
    m ++ [(k, v)]

/-- Mutating the task object stored under key `k` (the Python code mutates
the object in place, so absence of the key changes nothing). -/
def dictUpdate (m : TaskMap) (k : String) (v : VideoTask) : TaskMap :=
  m.map (fun p => if p.1 == k then (k, v) else p)

/-- Python `del self._tasks[k]`. -/
def dictDel (m : TaskMap) (k : String) : TaskMap :=
  m.filter (fun p => p.1 != k)

/-- `self._max_tasks = 1000`. -/
def MAX_TASKS : Nat := 1000

/-- `self._task_expire_hours * 3600` with `_task_expire_hours = 24`. -/
def TASK_EXPIRE_SECONDS : Nat := 24 * 3600

/-- Python's `str.lower()`, expressed over the character list so that it
evaluates inside the kernel (`Char.toLower` lowercases the basic latin
range, which covers every string this service lowercases). -/
def strLower (s : String) : String :=
  String.mk (s.toList.map Char.toLower)

/-- `VideoTaskService._map_to_grok_model`: dictionary lookup on the
lowercased public name, with `"grok-imagine-0.9"` as the default. -/
def map_to_grok_model (model : String) : String :=
  let m := strLower model
  if m = "sora-2" then "grok-imagine-0.9"
  else if m = "sora-2-pro" then "grok-imagine-0.9"
  else if m = "sora" then "grok-imagine-0.9"
  else "grok-imagine-0.9"

/-- The expiry test of `_cleanup_old_tasks`:
`task.expires_at and task.expires_at < now`. Python truthiness makes both
`None` and `0` fail the first conjunct, so a zero timestamp never counts as
expired. -/
def task_is_expired (t : VideoTask) (now : Nat) : Bool :=
  match t.expires_at with
  | none => false
  | some e => e != 0 && e < now

/-- First loop of `_cleanup_old_tasks`: the ids collected into
`expired_ids`, in mapping order. -/
def expired_ids (m : TaskMap) (now : Nat) : List String :=
  (m.filter (fun p => task_is_expired p.2 now)).map Prod.fst

/-- `VideoTaskService._cleanup_old_tasks`: collect the expired ids, then
delete each collected id from the mapping. -/
def cleanup_old_tasks (m : TaskMap) (now : Nat) : TaskMap :=
  (expired_ids m now).foldl dictDel m

/-- `VideoTaskService.create_task` on an already-loaded service: build the
task with the mapped model and `expires_at = now + 24h`, insert it, run the
eviction pass when the mapping has grown beyond `_max_tasks`, and mark the
store dirty. Returns the created record together with the new state (the
spawned generation worker is modelled separately by `process_task`). -/
def create_task (st : ServiceState) (now : Nat) (newId : String)
    (prompt : String) (model : String) (input_reference : Option String)
    (seconds : String) (size : String) (user : Option String) :
    VideoTask × ServiceState :=
  let actual_model := map_to_grok_model model
  let expires := now + TASK_EXPIRE_SECONDS
  let task : VideoTask :=
    { id := newId, model := actual_model, created_at := now,
      prompt := prompt, input_reference := input_reference,
      seconds := seconds, size := size, expires_at := some expires,
      user := user }
  let tasks1 := dictInsert st.tasks newId task
  let tasks2 := if tasks1.length > MAX_TASKS then cleanup_old_tasks tasks1 now else tasks1
  (task, { st with tasks := tasks2, save_pending := true })

/-- Python's substring operator `pat in s` on lists of characters (the empty
pattern is contained in everything, as in Python). -/
def listHasSub (s pat : List Char) : Bool :=
  match s with
  | [] => pat.isEmpty
  | _ :: cs => pat.isPrefixOf s || listHasSub cs pat

/-- Python's substring operator `pat in s` on strings. -/
def strContains (s pat : String) : Bool :=
  listHasSub s.toList pat.toList

/-- The literal characters of the regex fragment `src="`. -/
def srcLit : List Char := ['s', 'r', 'c', '=', '"']

/-- The literal characters of the regex fragment `<video`. -/
def videoLit : List Char := ['<', 'v', 'i', 'd', 'e', 'o']

/-- Matching the tail `([^"]+)"` of the video regex against `l`: the greedy
capture is everything up to the first `"`, which must exist and must not come
first. -/
def capAt (l : List Char) : Option (List Char) :=
  let cap := l.takeWhile (fun c => c ≠ '"')
  if cap.length = 0 then none
  else if cap.length < l.length then some cap
  else none

/-- Matching `[^>]+src="([^"]+)"` against `rest`, trying the length of the
greedy `[^>]+` block from `j` downward (Python's backtracking tries the
longest block first). -/
def tryMidFrom (rest : List Char) : Nat → Option (List Char)
  | 0 => none
  | j + 1 =>
    if (rest.take (j + 1)).all (fun c => c ≠ '>') && srcLit.isPrefixOf (rest.drop (j + 1)) then
      match capAt (rest.drop (j + 1 + 5)) with
      | some cap => some cap
      | none => tryMidFrom rest j
    else tryMidFrom rest j

/-- Matching the whole regex `<video[^>]+src="([^"]+)"` at the start of
`s`, returning the capture group. -/
def matchVideoAt (s : List Char) : Option (List Char) :=
  if videoLit.isPrefixOf s then
    let rest := s.drop 6
    tryMidFrom rest rest.length
  else none

/-- Leftmost match of the video regex: the first capture returned by
`re.findall(r'<video[^>]+src="([^"]+)"', content)`. -/
def findVideoSrc : List Char → Option (List Char)
  | [] => none
  | c :: cs =>
    match matchVideoAt (c :: cs) with
    | some cap => some cap
    | none => findVideoSrc cs

/-- String-level wrapper of `findVideoSrc`. -/
def findVideoSrcStr (content : String) : Option String :=
  (findVideoSrc content.toList).map (fun cs => String.mk cs)

/-- The extension markers `['.mp4', '.webm', '.mov']` of `_process_task`. -/
def video_exts : List String := [".mp4", ".webm", ".mov"]

/-- The media-url fallback of `_process_task`: the first url `u` of the list
with `any(ext in u.lower() for ext in ['.mp4', '.webm', '.mov'])` — a
substring test on the lowercased url, not an extension test. -/
def find_video_ext_url (urls : List String) : Option String :=
  urls.find? (fun u => video_exts.any (fun ext => strContains (strLower u) ext))

/-- The video-url extraction of `_process_task`: first the regex match on the
response content, then the media-url fallback. -/
def extract_video_url (content : String) (media_urls : List String) : Option String :=
  match findVideoSrcStr content with
  | some u => some u
  | none => find_video_ext_url media_urls

/-- The provider response seen by the generation worker: `content` is
`choices[0].message.content` (or `""` when absent), `media_urls` the
provider-supplied media url list. -/
structure ProviderResponse where
  content : String
  media_urls : List String
deriving DecidableEq, Repr

/-- The net effect of `VideoTaskService._process_task` on its task record.
The provider call is the only raising point modelled (`.error`): at that
point the code had already set `progress = 30`, and the no-video branch runs
after `progress = 80`; the recorded progress values mirror that. The
intermediate states `in_progress`/10/30/80 are overwritten before the worker
terminates and the claims quantify over the terminated worker, so only the
final record is produced here. -/
def process_task_update (task : VideoTask) (now : Nat)
    (result : Except String ProviderResponse) : VideoTask :=
  match result with
  | .error msg =>
    { task with
      status := "failed"
      progress := 30
      error_code := some "generation_error"
      error_message := some msg }
  | .ok r =>
    match extract_video_url r.content r.media_urls with
    | some u =>
      let t := { task with
                 status := "completed"
                 progress := 100
                 completed_at := some now
                 video_url := some u }
      if strContains u "/images/" then
        { t with video_path := some ((u.splitOn "/images/").getLastD "") }
      else t
    | none =>
      { task with
        status := "failed"
        progress := 80
        error_code := some "no_video_generated"
        error_message := some "视频生成失败，未获取到视频URL" }

/-- `VideoTaskService._process_task` at the state level: look the task up,
apply the worker's update in place, and mark the store dirty (the `finally`
block); a missing id only logs. -/
def process_task (st : ServiceState) (task_id : String) (now : Nat)
    (result : Except String ProviderResponse) : ServiceState :=
  match (st.tasks.find? (fun p => p.1 == task_id)).map Prod.snd with
  | none => st
  | some task =>
    { st with
      tasks := dictUpdate st.tasks task_id (process_task_update task now result)
      save_pending := true }

/-- The user filter of `list_tasks`: Python `if user:` skips the filter for
`None` and for the empty string, and `t.user == user` compares the optional
stored user with the given string. -/
def working_set (tasks : List VideoTask) (user : Option String) : List VideoTask :=
  match user with
  | some u => if u = "" then tasks else tasks.filter (fun t => t.user == some u)
  | none => tasks

/-- The sort of `list_tasks`:
`tasks.sort(key=lambda t: t.created_at, reverse=(order.lower() == "desc"))`.
Python's sort is stable, and a stable sort is uniquely determined by the key
order, so it is embedded as the (stable) `List.mergeSort`; `reverse=True`
flips the key comparison but keeps ties in insertion order, exactly as
`mergeSort` with the flipped comparator does. -/
def sort_tasks (tasks : List VideoTask) (order : String) : List VideoTask :=
  if strLower order == "desc" then
    tasks.mergeSort (fun a b => decide (b.created_at ≤ a.created_at))
  else
    tasks.mergeSort (fun a b => decide (a.created_at ≤ b.created_at))

/-- The cursor loop of `list_tasks`: drop everything up to and including the
first task whose id equals `a`; when no task matches, the result is empty. -/
def drop_through_id (tasks : List VideoTask) (a : String) : List VideoTask :=
  match tasks with
  | [] => []
  | t :: rest => if t.id == a then rest else drop_through_id rest a

/-- `VideoTaskService.list_tasks` on an already-loaded service: user filter,
stable sort by `created_at`, optional cursor (Python `if after:` skips it for
`None` and for the empty string), truncation to `limit`, and the page
metadata `(has_more, first_id, last_id)`. `limit` is a natural number: the
API layer constrains it to `1..100`. -/
def list_tasks (st : ServiceState) (limit : Nat) (after : Option String)
    (order : String) (user : Option String) :
    List VideoTask × Bool × Option String × Option String :=
  let tasks0 := st.tasks.map Prod.snd
  let tasks1 := working_set tasks0 user
  let tasks2 := sort_tasks tasks1 order
  let tasks3 :=
    match after with
    | some a => if a = "" then tasks2 else drop_through_id tasks2 a
    | none => tasks2
  let has_more := decide (tasks3.length > limit)
  let page := tasks3.take limit
  (page, has_more, page.head?.map VideoTask.id, (page.getLast?).map VideoTask.id)

/-- `VideoTaskService.remix_task` on an already-loaded service: null when
the source is absent or not completed; otherwise `create_task` with the
source's model, its `video_url` as `input_reference`, its seconds, size and
user, then the new record (the very object stored in the mapping) is stamped
with `remixed_from_video_id` and the store marked dirty. -/
def remix_task (st : ServiceState) (now : Nat) (newId : String)
    (source_task_id : String) (prompt : String) :
    Option VideoTask × ServiceState :=
  match (st.tasks.find? (fun p => p.1 == source_task_id)).map Prod.snd with
  | none => (none, st)
  | some source =>
    if source.status ≠ "completed" then (none, st)
    else
      let res := create_task st now newId prompt source.model source.video_url
        source.seconds source.size source.user
      let stamped := { res.1 with remixed_from_video_id := some source_task_id }
      (some stamped,
        { res.2 with
          tasks := dictUpdate res.2.tasks res.1.id stamped
          save_pending := true })

/-- `VideoTaskService.get_video_content` on an already-loaded service. The
external media cache is a parameter pair: `get_cached` is
`video_cache_service.get_cached` and `path_exists` is `Path.exists` on its
result. Python `if task.video_path:` skips the lookup for `None` and for the
empty string. -/
def get_video_content (st : ServiceState) (task_id : String)
    (get_cached : String → Option String) (path_exists : String → Bool) :
    Option String :=
  match (st.tasks.find? (fun p => p.1 == task_id)).map Prod.snd with
  | none => none
  | some task =>
    if task.status ≠ "completed" then none
    else
      match task.video_path with
      | some vp =>
        if vp = "" then none
        else
          let original_path := "/" ++ (vp.replace "-" "/")
          match get_cached original_path with
          | some cp => if path_exists cp then some cp else none
          | none => none
      | none => none

/-- The outcome of the file read and parse attempted by `_load_tasks`:
the file does not exist, or reading/parsing raised, or it produced the task
entries of `data.get("tasks", {})` (already decoded; ill-typed field values,
which Python's untyped dataclass would accept verbatim, are outside this
typed embedding and land in `readError` together with every other parse
failure). -/
inductive FileRead where
  | missing
  | readError (msg : String)
  | parsed (entries : List (String × VideoTask))
deriving DecidableEq, Repr

/-- `VideoTaskService._load_tasks`: a no-op when already loaded; otherwise a
total function — every read or parse failure is swallowed, leaves the
mapping empty (the `except` branch resets `self._tasks = {}`, discarding any
partially inserted entries) and still sets `_loaded`. -/
def load_tasks (st : ServiceState) (file : FileRead) : ServiceState :=
  if st.loaded then st
  else
    match file with
    | .missing => { st with tasks := [], loaded := true }
    | .readError _ => { st with tasks := [], loaded := true }
    | .parsed entries =>
      { st with
        tasks := entries.foldl (fun m p => dictInsert m p.1 p.2) st.tasks
        loaded := true }

/-- A value of the serialized task dictionary produced by
`dataclasses.asdict`: every `VideoTask` field is a string, an int, or
`None`. -/
inductive PyValue where
  | vStr (s : String)
  | vInt (n : Nat)
  | vNone
deriving DecidableEq, Repr

/-- An optional string as it appears in the serialized dictionary. -/
def optStr : Option String → PyValue
  | some s => .vStr s
  | none => .vNone

/-- An optional int as it appears in the serialized dictionary. -/
def optInt : Option Nat → PyValue
  | some n => .vInt n
  | none => .vNone

/-- The serialized task dictionary, as an association list of field name to
value (a Python dict never repeats a key). -/
abbrev TaskDict := List (String × PyValue)

/-- `VideoTask.to_dict`, i.e. `dataclasses.asdict`: every dataclass field,
in declaration order. -/
def VideoTask.to_dict (t : VideoTask) : TaskDict :=
  [("id", .vStr t.id),
   ("model", .vStr t.model),
   ("status", .vStr t.status),
   ("progress", .vInt t.progress),
   ("created_at", .vInt t.created_at),
   ("completed_at", optInt t.completed_at),
   ("expires_at", optInt t.expires_at),
   ("prompt", .vStr t.prompt),
   ("size", .vStr t.size),
   ("seconds", .vStr t.seconds),
   ("quality", .vStr t.quality),
   ("error_code", optStr t.error_code),
   ("error_message", optStr t.error_message),
   ("remixed_from_video_id", optStr t.remixed_from_video_id),
   ("video_url", optStr t.video_url),
   ("video_path", optStr t.video_path),
   ("thumbnail_url", optStr t.thumbnail_url),
   ("input_reference", optStr t.input_reference),
   ("sso_token", optStr t.sso_token),
   ("user", optStr t.user)]

/-- `cls.__dataclass_fields__`: the valid field names of the dataclass. -/
def validFields : List String :=
  ["id", "model", "status", "progress", "created_at", "completed_at",
   "expires_at", "prompt", "size", "seconds", "quality", "error_code",
   "error_message", "remixed_from_video_id", "video_url", "video_path",
   "thumbnail_url", "input_reference", "sso_token", "user"]

/-- Whether the key `k` of the filtered dictionary can be read back as a
required-string field: a missing key falls back to the dataclass default.
A value of the wrong shape has no typed counterpart here — Python, being
untyped, would store it verbatim; such dictionaries are outside this typed
embedding and `from_dict` rejects them. -/
def fieldOkStr (m : TaskDict) (k : String) : Bool :=
  match m.lookup k with
  | none => true
  | some (.vStr _) => true
  | some _ => false

/-- Whether the key `k` can be read back as an int field. -/
def fieldOkNat (m : TaskDict) (k : String) : Bool :=
  match m.lookup k with
  | none => true
  | some (.vInt _) => true
  | some _ => false

/-- Whether the key `k` can be read back as an optional-string field. -/
def fieldOkOptStr (m : TaskDict) (k : String) : Bool :=
  match m.lookup k with
  | none => true
  | some (.vStr _) => true
  | some .vNone => true
  | some _ => false

/-- Whether the key `k` can be read back as an optional-int field. -/
def fieldOkOptNat (m : TaskDict) (k : String) : Bool :=
  match m.lookup k with
  | none => true
  | some (.vInt _) => true
  | some .vNone => true
  | some _ => false

/-- Reading a required-string field, with the dataclass default for a
missing key. -/
def getStrD (m : TaskDict) (k : String) (dflt : String) : String :=
  match m.lookup k with
  | some (.vStr s) => s
  | _ => dflt

/-- Reading an int field, with the dataclass default for a missing key. -/
def getNatD (m : TaskDict) (k : String) (dflt : Nat) : Nat :=
  match m.lookup k with
  | some (.vInt n) => n
  | _ => dflt

/-- Reading an optional-string field (default `None`). -/
def getOptStrD (m : TaskDict) (k : String) : Option String :=
  match m.lookup k with
  | some (.vStr s) => some s
  | _ => none

/-- Reading an optional-int field (default `None`). -/
def getOptNatD (m : TaskDict) (k : String) : Option Nat :=
  match m.lookup k with
  | some (.vInt n) => some n
  | _ => none

/-- Whether every field of the filtered dictionary has the shape its
dataclass annotation promises. -/
def wellTypedTaskDict (m : TaskDict) : Bool :=
  fieldOkStr m "id" && fieldOkStr m "model" && fieldOkStr m "status" &&
  fieldOkNat m "progress" && fieldOkNat m "created_at" &&
  fieldOkOptNat m "completed_at" && fieldOkOptNat m "expires_at" &&
  fieldOkStr m "prompt" && fieldOkStr m "size" && fieldOkStr m "seconds" &&
  fieldOkStr m "quality" && fieldOkOptStr m "error_code" &&
  fieldOkOptStr m "error_message" && fieldOkOptStr m "remixed_from_video_id" &&
  fieldOkOptStr m "video_url" && fieldOkOptStr m "video_path" &&
  fieldOkOptStr m "thumbnail_url" && fieldOkOptStr m "input_reference" &&
  fieldOkOptStr m "sso_token" && fieldOkOptStr m "user"

/-- `VideoTask.from_dict`: keep only the keys that name dataclass fields,
then construct the dataclass, falling back to the field defaults for missing
keys. The generated defaults of `id` and `created_at` (fresh uuid, current
time) are the explicit parameters `fresh_id` and `now`. Python's untyped
constructor accepts any value for any field; dictionaries whose values do
not fit the field annotations are outside this typed embedding and are
rejected (`none`). -/
def VideoTask.from_dict (data : TaskDict) (fresh_id : String) (now : Nat) :
    Option VideoTask :=
  let filtered := data.filter (fun p => validFields.contains p.1)
  if wellTypedTaskDict filtered then
    some
      { id := getStrD filtered "id" fresh_id
        model := getStrD filtered "model" "grok-imagine-0.9"
        status := getStrD filtered "status" "queued"
        progress := getNatD filtered "progress" 0
        created_at := getNatD filtered "created_at" now
        completed_at := getOptNatD filtered "completed_at"
        expires_at := getOptNatD filtered "expires_at"
        prompt := getStrD filtered "prompt" ""
        size := getStrD filtered "size" "720x1280"
        seconds := getStrD filtered "seconds" "4"
        quality := getStrD filtered "quality" "standard"
        error_code := getOptStrD filtered "error_code"
        error_message := getOptStrD filtered "error_message"
        remixed_from_video_id := getOptStrD filtered "remixed_from_video_id"
        video_url := getOptStrD filtered "video_url"
        video_path := getOptStrD filtered "video_path"
        thumbnail_url := getOptStrD filtered "thumbnail_url"
        input_reference := getOptStrD filtered "input_reference"
        sso_token := getOptStrD filtered "sso_token"
        user := getOptStrD filtered "user" }
  else none

/-- Modelled from the spec: the spec describes the media-url fallback as
taking a url "whose extension indicates a video container
(.mp4/.webm/.mov)". This definition follows the spec's words — the url's
extension, i.e. its ending — and exists only to be compared against the
code's substring test `ext in url.lower()`. -/
def spec_video_container_ext (u : String) : Bool :=
  (".mp4".toList).isSuffixOf (strLower u).toList ||
  (".webm".toList).isSuffixOf (strLower u).toList ||
  (".mov".toList).isSuffixOf (strLower u).toList

/-- C8: for every persisted-file state (missing, unreadable or unparseable)
the load never propagates an error (it is a total function of the read
outcome): a missing file and a failed read or parse both leave an empty
mapping and set the loaded flag, and every outcome sets the loaded flag, so
the service continues operating. -/
theorem load_tasks_fails_soft (st : ServiceState) (msg : String) (file : FileRead)
    (h : st.loaded = false) :
    (load_tasks st .missing).tasks = [] ∧ (load_tasks st .missing).loaded = true ∧
    (load_tasks st (.readError msg)).tasks = [] ∧
    (load_tasks st (.readError msg)).loaded = true ∧
    (load_tasks st file).loaded = true := by
  refine ⟨by simp [load_tasks, h], by simp [load_tasks, h],
    by simp [load_tasks, h], by simp [load_tasks, h], ?_⟩
  cases file <;> simp [load_tasks, h]

/-- Witness for C8 at a concrete unloaded state and a concrete parse
failure. -/
theorem load_tasks_fails_soft_witness :
    (load_tasks ⟨[], false, false⟩ (.readError "invalid json")).tasks = [] ∧
    (load_tasks ⟨[], false, false⟩ (.readError "invalid json")).loaded = true := by
  have h := load_tasks_fails_soft ⟨[], false, false⟩ "invalid json" .missing rfl
  exact ⟨h.2.2.1, h.2.2.2.1⟩

/-- C5: after the generation worker terminates on a task whose error fields
and video url start unset (as every task produced by `create_task` does),
the terminal record is consistent: completed implies progress 100, a video
url and no error fields; failed implies an error code
(`no_video_generated` or `generation_error`) and no video url; and the
error code is set iff the status is failed. -/
theorem worker_terminal_state_consistent (task : VideoTask) (now : Nat)
    (result : Except String ProviderResponse) (t : VideoTask)
    (ht : t = process_task_update task now result)
    (hec : task.error_code = none) (hem : task.error_message = none)
    (hvu : task.video_url = none) :
    (t.status = "completed" ∨ t.status = "failed") ∧
    (t.status = "completed" →
      t.progress = 100 ∧ (∃ u, t.video_url = some u) ∧
      t.error_code = none ∧ t.error_message = none) ∧
    (t.status = "failed" →
      (t.error_code = some "no_video_generated" ∨
        t.error_code = some "generation_error") ∧
      t.video_url = none) ∧
    (t.error_code ≠ none ↔ t.status = "failed") := by
  subst ht
  cases result with
  | error msg =>
    simp [process_task_update, hvu]
  | ok r =>
    cases hx : extract_video_url r.content r.media_urls with
    | some u =>
      by_cases hi : strContains u "/images/" = true <;>
        simp [process_task_update, hx, hi, hec, hem]
    | none =>
      simp [process_task_update, hx, hvu]

/-- Witness for C5 at a concrete fresh task and a provider response with no
extractable video url. -/
theorem worker_terminal_state_consistent_witness :
    ((process_task_update { id := "v1", created_at := 0 } 5 (.ok ⟨"", []⟩)).error_code ≠ none ↔
      (process_task_update { id := "v1", created_at := 0 } 5 (.ok ⟨"", []⟩)).status = "failed") :=
  (worker_terminal_state_consistent { id := "v1", created_at := 0 } 5 (.ok ⟨"", []⟩)
    _ rfl rfl rfl rfl).2.2.2

/-- C6: every job produced by `create_task` (including the job a successful
remix returns) carries `expires_at = created_at + 86400`, and the worker's
terminal update never changes `expires_at` (nor does the remix stamping,
whose output is covered by the second conjunct; deletion and eviction remove
records rather than changing them). -/
theorem expires_at_fixed_ttl (st : ServiceState) (now : Nat) (newId : String)
    (prompt model : String) (iref : Option String) (seconds size : String)
    (user : Option String) (src_id rprompt : String)
    (task : VideoTask) (nowu : Nat) (res : Except String ProviderResponse)
    (t rt : VideoTask)
    (hc : t = (create_task st now newId prompt model iref seconds size user).1)
    (hr : (remix_task st now newId src_id rprompt).1 = some rt) :
    t.expires_at = some (t.created_at + 86400) ∧
    rt.expires_at = some (rt.created_at + 86400) ∧
    (process_task_update task nowu res).expires_at = task.expires_at := by
  refine ⟨?_, ?_, ?_⟩
  · subst hc
    simp [create_task, TASK_EXPIRE_SECONDS]
  · unfold remix_task at hr
    cases hf : (st.tasks.find? (fun p => p.1 == src_id)).map Prod.snd with
    | none => rw [hf] at hr; simp at hr
    | some source =>
      rw [hf] at hr
      by_cases hs : source.status ≠ "completed"
      · simp [hs] at hr
      · simp [hs] at hr
        subst hr
        simp [create_task, TASK_EXPIRE_SECONDS]
  · cases res with
    | error msg => simp [process_task_update]
    | ok r =>
      cases hx : extract_video_url r.content r.media_urls with
      | some u =>
        by_cases hi : strContains u "/images/" = true <;>
          simp [process_task_update, hx, hi]
      | none => simp [process_task_update, hx]

/-- Witness for C6 at a concrete state holding one completed source task:
the record returned by `create_task` carries the fixed 24h TTL. -/
theorem expires_at_fixed_ttl_witness :
    ((create_task
      ⟨[("src", { id := "src", created_at := 0, status := "completed", video_url := some "https://h/v.mp4" })], true, false⟩
      100 "new1" "p" "sora-2" none "4" "720x1280" none).1).expires_at =
    some (((create_task
      ⟨[("src", { id := "src", created_at := 0, status := "completed", video_url := some "https://h/v.mp4" })], true, false⟩
      100 "new1" "p" "sora-2" none "4" "720x1280" none).1).created_at + 86400) :=
  (expires_at_fixed_ttl
    ⟨[("src", { id := "src", created_at := 0, status := "completed", video_url := some "https://h/v.mp4" })], true, false⟩
    100 "new1" "p" "sora-2" none "4" "720x1280" none "src" "remix prompt"
    { id := "x", created_at := 0 } 0 (.ok ⟨"", []⟩) _ _ rfl rfl).1

/-- C4: `remix_task` returns null and leaves the state unchanged (creates no
job) when the source is absent or not completed; on a completed source with
a video url it returns a record created through `create_task` that carries
the source's model (through `create_task`'s model mapping, which fixes it
for every model the service itself creates), seconds, size and user, with
the source's video url as `input_reference` and with
`remixed_from_video_id` stamped to the source id. -/
theorem remix_source_and_result (st : ServiceState) (now : Nat) (newId : String)
    (src_id prompt : String) :
    ((st.tasks.find? (fun p => p.1 == src_id)).map Prod.snd = none →
      (remix_task st now newId src_id prompt).1 = none ∧
      (remix_task st now newId src_id prompt).2 = st) ∧
    (∀ s, (st.tasks.find? (fun p => p.1 == src_id)).map Prod.snd = some s →
      s.status ≠ "completed" →
      (remix_task st now newId src_id prompt).1 = none ∧
      (remix_task st now newId src_id prompt).2 = st) ∧
    (∀ s u, (st.tasks.find? (fun p => p.1 == src_id)).map Prod.snd = some s →
      s.status = "completed" → s.video_url = some u →
      ∃ t, (remix_task st now newId src_id prompt).1 = some t ∧
        t.input_reference = some u ∧
        t.remixed_from_video_id = some src_id ∧
        t.model = map_to_grok_model s.model ∧
        t.seconds = s.seconds ∧ t.size = s.size ∧ t.user = s.user ∧
        t.prompt = prompt ∧
        (s.model = "grok-imagine-0.9" → t.model = s.model)) := by
  refine ⟨?_, ?_, ?_⟩
  · intro hf
    simp [remix_task, hf]
  · intro s hf hs
    simp [remix_task, hf, hs]
  · intro s u hf hs hv
    refine ⟨{ (create_task st now newId prompt s.model s.video_url s.seconds s.size s.user).1
        with remixed_from_video_id := some src_id },
      ?_, ?_, ?_, ?_, ?_, ?_, ?_, ?_, ?_⟩
    · simp [remix_task, hf, hs]
    · simp [create_task, hv]
    · simp
    · simp [create_task]
    · simp [create_task]
    · simp [create_task]
    · simp [create_task]
    · simp [create_task]
    · intro hm
      simp [create_task, hm, map_to_grok_model]

/-- Witness for C4 at a concrete state holding one completed source task
with a video url. -/
theorem remix_source_and_result_witness :
    ((remix_task
      ⟨[("src", { id := "src", created_at := 0, status := "completed", video_url := some "https://h/v.mp4" })], true, false⟩
      100 "new1" "src" "rp").1.map VideoTask.remixed_from_video_id) = some (some "src") ∧
    ((remix_task
      ⟨[("src", { id := "src", created_at := 0, status := "completed", video_url := some "https://h/v.mp4" })], true, false⟩
      100 "new1" "src" "rp").1.map VideoTask.input_reference) =
      some (some "https://h/v.mp4") := by
  obtain ⟨t, h1, h2, h3, h4⟩ :=
    (remix_source_and_result
      ⟨[("src", { id := "src", created_at := 0, status := "completed", video_url := some "https://h/v.mp4" })], true, false⟩
      100 "new1" "src" "rp").2.2
      { id := "src", created_at := 0, status := "completed", video_url := some "https://h/v.mp4" }
      "https://h/v.mp4" rfl rfl rfl
  rw [h1]
  simp [h2, h3]

/-- C10: when the worker completes a job whose video url does not contain
the substring `/images/` (starting from a fresh task whose `video_path` is
unset, as every task produced by `create_task` is), `video_path` stays
unset; and `get_video_content` returns null for any stored job whose status
is not completed, and also for any completed job whose `video_path` is
unset, whatever the media cache would answer. -/
theorem video_path_unset_content_none (task : VideoTask) (now : Nat)
    (content : String) (media : List String)
    (st : ServiceState) (task_id : String)
    (get_cached : String → Option String) (path_exists : String → Bool)
    (q : VideoTask)
    (hvp : task.video_path = none)
    (hq : (st.tasks.find? (fun p => p.1 == task_id)).map Prod.snd = some q) :
    (∀ u, (process_task_update task now (.ok ⟨content, media⟩)).video_url = some u →
      strContains u "/images/" = false →
      (process_task_update task now (.ok ⟨content, media⟩)).video_path = none) ∧
    (q.status ≠ "completed" →
      get_video_content st task_id get_cached path_exists = none) ∧
    (q.video_path = none →
      get_video_content st task_id get_cached path_exists = none) := by
  refine ⟨?_, ?_, ?_⟩
  · intro u hu hni
    cases hx : extract_video_url content media with
    | some v =>
      have hv : v = u := by
        by_cases hi : strContains v "/images/" = true <;>
          simp [process_task_update, hx, hi] at hu <;> exact hu
      subst hv
      simp [process_task_update, hx, hni, hvp]
    | none =>
      simp [process_task_update, hx, hvp]
  · intro hs
    simp [get_video_content, hq, hs]
  · intro hp
    by_cases hs : q.status = "completed"
    · simp [get_video_content, hq, hs, hp]
    · simp [get_video_content, hq, hs]

/-- Witness for C10: a concrete completion whose url has no `/images/`
segment keeps `video_path` unset, and content retrieval on a concrete
completed job without `video_path` yields null. -/
theorem video_path_unset_content_none_witness :
    (process_task_update { id := "v", created_at := 0 } 5
      (.ok ⟨"<video a src=\"https://h/v.mp4\">", []⟩)).video_path = none ∧
    get_video_content
      ⟨[("q1", { id := "q1", created_at := 0, status := "completed", video_url := some "https://h/v.mp4" })], true, false⟩
      "q1" (fun _ => none) (fun _ => false) = none := by
  have h := video_path_unset_content_none { id := "v", created_at := 0 } 5
    "<video a src=\"https://h/v.mp4\">" []
    ⟨[("q1", { id := "q1", created_at := 0, status := "completed", video_url := some "https://h/v.mp4" })], true, false⟩
    "q1" (fun _ => none) (fun _ => false)
    { id := "q1", created_at := 0, status := "completed", video_url := some "https://h/v.mp4" }
    rfl rfl
  exact ⟨h.1 "https://h/v.mp4" rfl rfl, h.2.2 rfl⟩

/-- Counterexample to C7 as stated: with no video tag in the body, the code
picks the first media url containing `.mp4`/`.webm`/`.mov` as a substring
of its lowercased text, not the first url whose extension indicates a video
container — here it picks a url whose extension is `.png`. -/
theorem media_url_substring_not_extension_counterexample :
    extract_video_url "" ["https://example.com/a.mp4.png"] =
      some "https://example.com/a.mp4.png" ∧
    spec_video_container_ext "https://example.com/a.mp4.png" = false := by
  constructor <;> decide

/-- C7 (amended): the worker extracts the video url by first taking the
first match of the video-tag src pattern in the response body; if none, the
first url of the provider media list whose lowercased text contains `.mp4`,
`.webm` or `.mov` as a substring; if neither yields a url, the job is marked
failed with error code `no_video_generated`. -/
theorem worker_video_url_extraction_order (task : VideoTask) (now : Nat)
    (content : String) (media : List String) :
    (∀ v, findVideoSrcStr content = some v →
      (process_task_update task now (.ok ⟨content, media⟩)).video_url = some v ∧
      (process_task_update task now (.ok ⟨content, media⟩)).status = "completed") ∧
    (findVideoSrcStr content = none →
      extract_video_url content media =
        media.find? (fun u => video_exts.any (fun ext => strContains (strLower u) ext))) ∧
    (extract_video_url content media = none →
      (process_task_update task now (.ok ⟨content, media⟩)).status = "failed" ∧
      (process_task_update task now (.ok ⟨content, media⟩)).error_code =
        some "no_video_generated") := by
  refine ⟨?_, ?_, ?_⟩
  · intro v hv
    have hx : extract_video_url content media = some v := by
      simp [extract_video_url, hv]
    by_cases hi : strContains v "/images/" = true <;>
      simp [process_task_update, hx, hi]
  · intro hn
    simp [extract_video_url, hn, find_video_ext_url]
  · intro hx
    simp [process_task_update, hx]

/-- Witness for C7's amended theorem: a concrete body with a video tag wins
over the media list, and a concrete response with neither yields the
`no_video_generated` failure. -/
theorem worker_video_url_extraction_order_witness :
    (process_task_update { id := "w", created_at := 0 } 7
      (.ok ⟨"<video x src=\"https://h/a.mp4\">", ["https://h/b.webm"]⟩)).video_url =
      some "https://h/a.mp4" ∧
    (process_task_update { id := "w", created_at := 0 } 7
      (.ok ⟨"no tag here", ["https://h/readme.txt"]⟩)).error_code =
      some "no_video_generated" :=
  ⟨((worker_video_url_extraction_order { id := "w", created_at := 0 } 7
      "<video x src=\"https://h/a.mp4\">" ["https://h/b.webm"]).1
      "https://h/a.mp4" rfl).1,
    ((worker_video_url_extraction_order { id := "w", created_at := 0 } 7
      "no tag here" ["https://h/readme.txt"]).2.2 (by decide)).2⟩

/-- Unfolding lemma: a required-string field type-checks once its lookup is
a string value. -/
theorem fieldOkStr_of_lookup (m : TaskDict) (k s : String)
    (h : m.lookup k = some (.vStr s)) : fieldOkStr m k = true := by
  unfold fieldOkStr; rw [h]

/-- Unfolding lemma: an int field type-checks once its lookup is an int
value. -/
theorem fieldOkNat_of_lookup (m : TaskDict) (k : String) (n : Nat)
    (h : m.lookup k = some (.vInt n)) : fieldOkNat m k = true := by
  unfold fieldOkNat; rw [h]

/-- Unfolding lemma: an optional-string field type-checks once its lookup is
a serialized optional string. -/
theorem fieldOkOptStr_of_lookup (m : TaskDict) (k : String) (x : Option String)
    (h : m.lookup k = some (optStr x)) : fieldOkOptStr m k = true := by
  unfold fieldOkOptStr; rw [h]; cases x <;> rfl

/-- Unfolding lemma: an optional-int field type-checks once its lookup is a
serialized optional int. -/
theorem fieldOkOptNat_of_lookup (m : TaskDict) (k : String) (x : Option Nat)
    (h : m.lookup k = some (optInt x)) : fieldOkOptNat m k = true := by
  unfold fieldOkOptNat; rw [h]; cases x <;> rfl

/-- Unfolding lemma: reading a required-string field back. -/
theorem getStrD_of_lookup (m : TaskDict) (k s d : String)
    (h : m.lookup k = some (.vStr s)) : getStrD m k d = s := by
  unfold getStrD; rw [h]

/-- Unfolding lemma: reading an int field back. -/
theorem getNatD_of_lookup (m : TaskDict) (k : String) (n d : Nat)
    (h : m.lookup k = some (.vInt n)) : getNatD m k d = n := by
  unfold getNatD; rw [h]

/-- Unfolding lemma: reading an optional-string field back. -/
theorem getOptStrD_of_lookup (m : TaskDict) (k : String) (x : Option String)
    (h : m.lookup k = some (optStr x)) : getOptStrD m k = x := by
  unfold getOptStrD; rw [h]; cases x <;> rfl

/-- Unfolding lemma: reading an optional-int field back. -/
theorem getOptNatD_of_lookup (m : TaskDict) (k : String) (x : Option Nat)
    (h : m.lookup k = some (optInt x)) : getOptNatD m k = x := by
  unfold getOptNatD; rw [h]; cases x <;> rfl

/-- The serialized dictionary of any record is well typed. -/
theorem wellTyped_to_dict (t : VideoTask) : wellTypedTaskDict t.to_dict = true := by
  unfold wellTypedTaskDict
  rw [fieldOkStr_of_lookup _ _ _ (rfl : t.to_dict.lookup "id" = some (.vStr t.id)),
    fieldOkStr_of_lookup _ _ _ (rfl : t.to_dict.lookup "model" = some (.vStr t.model)),
    fieldOkStr_of_lookup _ _ _ (rfl : t.to_dict.lookup "status" = some (.vStr t.status)),
    fieldOkNat_of_lookup _ _ _ (rfl : t.to_dict.lookup "progress" = some (.vInt t.progress)),
    fieldOkNat_of_lookup _ _ _ (rfl : t.to_dict.lookup "created_at" = some (.vInt t.created_at)),
    fieldOkOptNat_of_lookup _ _ _ (rfl : t.to_dict.lookup "completed_at" = some (optInt t.completed_at)),
    fieldOkOptNat_of_lookup _ _ _ (rfl : t.to_dict.lookup "expires_at" = some (optInt t.expires_at)),
    fieldOkStr_of_lookup _ _ _ (rfl : t.to_dict.lookup "prompt" = some (.vStr t.prompt)),
    fieldOkStr_of_lookup _ _ _ (rfl : t.to_dict.lookup "size" = some (.vStr t.size)),
    fieldOkStr_of_lookup _ _ _ (rfl : t.to_dict.lookup "seconds" = some (.vStr t.seconds)),
    fieldOkStr_of_lookup _ _ _ (rfl : t.to_dict.lookup "quality" = some (.vStr t.quality)),
    fieldOkOptStr_of_lookup _ _ _ (rfl : t.to_dict.lookup "error_code" = some (optStr t.error_code)),
    fieldOkOptStr_of_lookup _ _ _ (rfl : t.to_dict.lookup "error_message" = some (optStr t.error_message)),
    fieldOkOptStr_of_lookup _ _ _ (rfl : t.to_dict.lookup "remixed_from_video_id" = some (optStr t.remixed_from_video_id)),
    fieldOkOptStr_of_lookup _ _ _ (rfl : t.to_dict.lookup "video_url" = some (optStr t.video_url)),
    fieldOkOptStr_of_lookup _ _ _ (rfl : t.to_dict.lookup "video_path" = some (optStr t.video_path)),
    fieldOkOptStr_of_lookup _ _ _ (rfl : t.to_dict.lookup "thumbnail_url" = some (optStr t.thumbnail_url)),
    fieldOkOptStr_of_lookup _ _ _ (rfl : t.to_dict.lookup "input_reference" = some (optStr t.input_reference)),
    fieldOkOptStr_of_lookup _ _ _ (rfl : t.to_dict.lookup "sso_token" = some (optStr t.sso_token)),
    fieldOkOptStr_of_lookup _ _ _ (rfl : t.to_dict.lookup "user" = some (optStr t.user))]
  rfl

/-- C9: serializing and deserializing round-trips exactly: `from_dict`
recovers the record field for field from `to_dict`'s output, ignoring any
extra keys that name no dataclass field, so no information is lost across a
persistence cycle. -/
theorem to_dict_from_dict_roundtrip (t : VideoTask) (extra : TaskDict)
    (fresh_id : String) (now : Nat)
    (hx : ∀ p ∈ extra, validFields.contains p.1 = false) :
    VideoTask.from_dict (t.to_dict ++ extra) fresh_id now = some t := by
  have h1 : t.to_dict.filter (fun p => validFields.contains p.1) = t.to_dict := rfl
  have h2 : extra.filter (fun p => validFields.contains p.1) = [] := by
    rw [List.filter_eq_nil_iff]
    intro a ha
    simpa using hx a ha
  have hfil : (t.to_dict ++ extra).filter (fun p => validFields.contains p.1) = t.to_dict := by
    rw [List.filter_append, h1, h2, List.append_nil]
  unfold VideoTask.from_dict
  simp only [hfil, wellTyped_to_dict, if_true]
  rw [getStrD_of_lookup _ _ _ _ (rfl : t.to_dict.lookup "id" = some (.vStr t.id)),
    getStrD_of_lookup _ _ _ _ (rfl : t.to_dict.lookup "model" = some (.vStr t.model)),
    getStrD_of_lookup _ _ _ _ (rfl : t.to_dict.lookup "status" = some (.vStr t.status)),
    getNatD_of_lookup _ _ _ _ (rfl : t.to_dict.lookup "progress" = some (.vInt t.progress)),
    getNatD_of_lookup _ _ _ _ (rfl : t.to_dict.lookup "created_at" = some (.vInt t.created_at)),
    getOptNatD_of_lookup _ _ _ (rfl : t.to_dict.lookup "completed_at" = some (optInt t.completed_at)),
    getOptNatD_of_lookup _ _ _ (rfl : t.to_dict.lookup "expires_at" = some (optInt t.expires_at)),
    getStrD_of_lookup _ _ _ _ (rfl : t.to_dict.lookup "prompt" = some (.vStr t.prompt)),
    getStrD_of_lookup _ _ _ _ (rfl : t.to_dict.lookup "size" = some (.vStr t.size)),
    getStrD_of_lookup _ _ _ _ (rfl : t.to_dict.lookup "seconds" = some (.vStr t.seconds)),
    getStrD_of_lookup _ _ _ _ (rfl : t.to_dict.lookup "quality" = some (.vStr t.quality)),
    getOptStrD_of_lookup _ _ _ (rfl : t.to_dict.lookup "error_code" = some (optStr t.error_code)),
    getOptStrD_of_lookup _ _ _ (rfl : t.to_dict.lookup "error_message" = some (optStr t.error_message)),
    getOptStrD_of_lookup _ _ _ (rfl : t.to_dict.lookup "remixed_from_video_id" = some (optStr t.remixed_from_video_id)),
    getOptStrD_of_lookup _ _ _ (rfl : t.to_dict.lookup "video_url" = some (optStr t.video_url)),
    getOptStrD_of_lookup _ _ _ (rfl : t.to_dict.lookup "video_path" = some (optStr t.video_path)),
    getOptStrD_of_lookup _ _ _ (rfl : t.to_dict.lookup "thumbnail_url" = some (optStr t.thumbnail_url)),
    getOptStrD_of_lookup _ _ _ (rfl : t.to_dict.lookup "input_reference" = some (optStr t.input_reference)),
    getOptStrD_of_lookup _ _ _ (rfl : t.to_dict.lookup "sso_token" = some (optStr t.sso_token)),
    getOptStrD_of_lookup _ _ _ (rfl : t.to_dict.lookup "user" = some (optStr t.user))]

/-- Witness for C9 at a concrete record and a concrete unknown key. -/
theorem to_dict_from_dict_roundtrip_witness :
    VideoTask.from_dict
      (({ id := "v1", created_at := 7, user := some "alice" } : VideoTask).to_dict ++
        [("junk", .vStr "x")]) "fresh" 0 =
      some { id := "v1", created_at := 7, user := some "alice" } :=
  to_dict_from_dict_roundtrip { id := "v1", created_at := 7, user := some "alice" }
    [("junk", .vStr "x")] "fresh" 0 (by decide)

/-- Deleting a list of keys keeps exactly the entries whose key is not in
the list. -/
theorem mem_foldl_dictDel (ids : List String) (m : TaskMap) (p : String × VideoTask) :
    p ∈ ids.foldl dictDel m ↔ p ∈ m ∧ ∀ k ∈ ids, p.1 ≠ k := by
  induction ids generalizing m with
  | nil => simp
  | cons k ks ih =>
    rw [List.foldl_cons, ih]
    simp only [dictDel, List.mem_filter, List.mem_cons, bne_iff_ne, ne_eq]
    constructor
    · rintro ⟨⟨hm, hk⟩, hks⟩
      exact ⟨hm, fun k' hk' => by rcases hk' with rfl | hk' <;> [exact hk; exact hks k' hk']⟩
    · rintro ⟨hm, hall⟩
      exact ⟨⟨hm, hall k (Or.inl rfl)⟩, fun k' hk' => hall k' (Or.inr hk')⟩

/-- Membership in the collected expired-id list. -/
theorem mem_expired_ids (m : TaskMap) (now : Nat) (k : String) :
    k ∈ expired_ids m now ↔
      ∃ q ∈ m, task_is_expired q.2 now = true ∧ q.1 = k := by
  simp only [expired_ids, List.mem_map, List.mem_filter]
  constructor
  · rintro ⟨q, ⟨hq, hexp⟩, rfl⟩
    exact ⟨q, hq, hexp, rfl⟩
  · rintro ⟨q, hq, hexp, rfl⟩
    exact ⟨q, ⟨hq, hexp⟩, rfl⟩

/-- In a mapping whose keys repeat nowhere, an entry is determined by its
key. -/
theorem entry_eq_of_key_eq (m : TaskMap) (h : (m.map Prod.fst).Nodup)
    (p q : String × VideoTask) (hp : p ∈ m) (hq : q ∈ m) (he : p.1 = q.1) :
    p = q := by
  induction m with
  | nil => cases hp
  | cons x xs ih =>
    rw [List.map_cons, List.nodup_cons] at h
    rcases List.mem_cons.mp hp with rfl | hp' <;>
      rcases List.mem_cons.mp hq with rfl | hq'
    · rfl
    · exact absurd (he ▸ List.mem_map_of_mem Prod.fst hq') h.1
    · exact absurd (he ▸ List.mem_map_of_mem Prod.fst hp') h.1
    · exact ih h.2 hp' hq'

/-- The eviction pass keeps exactly the entries that do not pass the expiry
test, provided the mapping's keys repeat nowhere (as a dict's never do). -/
theorem mem_cleanup_old_tasks (m : TaskMap) (now : Nat)
    (h : (m.map Prod.fst).Nodup) (p : String × VideoTask) (hp : p ∈ m) :
    p ∈ cleanup_old_tasks m now ↔ task_is_expired p.2 now = false := by
  unfold cleanup_old_tasks
  rw [mem_foldl_dictDel]
  constructor
  · rintro ⟨-, hall⟩
    by_contra hexp
    rw [Bool.not_eq_false] at hexp
    exact hall p.1 ((mem_expired_ids m now p.1).mpr ⟨p, hp, hexp, rfl⟩) rfl
  · intro hnexp
    refine ⟨hp, fun k hk hpk => ?_⟩
    obtain ⟨q, hq, hqexp, hqk⟩ := (mem_expired_ids m now k).mp hk
    have : p = q := entry_eq_of_key_eq m h p q hp hq (by rw [hpk, hqk])
    rw [this] at hnexp
    rw [hnexp] at hqexp
    cases hqexp

/-- Inserting into a mapping whose keys repeat nowhere keeps the keys
without repetition (an in-place replacement keeps the key list unchanged,
an append adds a key that was absent). -/
theorem dictInsert_keys_nodup (m : TaskMap) (k : String) (v : VideoTask)
    (h : (m.map Prod.fst).Nodup) : ((dictInsert m k v).map Prod.fst).Nodup := by
  unfold dictInsert
  by_cases hany : m.any (fun p => p.1 == k) = true
  · rw [if_pos hany, List.map_map]
    have hfst : (Prod.fst ∘ fun p : String × VideoTask =>
        if p.1 == k then (k, v) else p) = Prod.fst := by
      funext p
      by_cases hpk : p.1 == k
      · simp [hpk, (eq_of_beq hpk).symm]
      · have hne : p.1 ≠ k := by simpa using hpk
        simp [hpk, hne]
    rw [hfst]
    exact h
  · rw [if_neg hany, List.map_append, List.map_cons, List.map_nil, List.nodup_append]
    refine ⟨h, List.nodup_singleton k, fun a ha hb => ?_⟩
    rcases List.mem_singleton.mp hb with rfl
    obtain ⟨p, hp, rfl⟩ := List.mem_map.mp ha
    rw [List.any_eq_true] at hany
    exact hany ⟨p, hp, by simp⟩

/-- Counterexample to C1 as stated: a stored record whose `expires_at` is
`0` — a timestamp earlier than the current time `5` — survives the eviction
pass, because the code's truthiness test `task.expires_at and
task.expires_at < now` skips a zero timestamp. -/
theorem eviction_skips_zero_expiry_counterexample :
    ("t0", ({ id := "t0", created_at := 0, expires_at := some 0 } : VideoTask)) ∈
      cleanup_old_tasks [("t0", { id := "t0", created_at := 0, expires_at := some 0 })] 5 ∧
    ({ id := "t0", created_at := 0, expires_at := some 0 } : VideoTask).expires_at = some 0 ∧
    (0 : Nat) < 5 := by
  refine ⟨by decide, rfl, by decide⟩

/-- C1 (amended): whenever the eviction pass runs — it is triggered inside
`create_task` exactly when the mapping size after insertion exceeds 1000,
before `create_task` returns — it removes exactly the stored records whose
`expires_at` is set, nonzero and earlier than the current time; in
particular it keeps every record whose `expires_at` is unset or zero (the
truthiness test skips those), and it never removes a record whose
`expires_at` is greater than the current time. -/
theorem eviction_removes_exactly_truthy_expired (st : ServiceState) (now : Nat)
    (newId prompt model : String) (iref : Option String) (seconds size : String)
    (user : Option String) (tasks1 : TaskMap)
    (h1 : tasks1 = dictInsert st.tasks newId
      (create_task st now newId prompt model iref seconds size user).1)
    (hnd : (st.tasks.map Prod.fst).Nodup) :
    (tasks1.length > MAX_TASKS →
      (create_task st now newId prompt model iref seconds size user).2.tasks =
        cleanup_old_tasks tasks1 now ∧
      ∀ p ∈ tasks1,
        (p ∈ (create_task st now newId prompt model iref seconds size user).2.tasks ↔
          task_is_expired p.2 now = false)) ∧
    (¬ tasks1.length > MAX_TASKS →
      (create_task st now newId prompt model iref seconds size user).2.tasks = tasks1) := by
  subst h1
  simp only [create_task]
  constructor
  · intro hgt
    rw [if_pos hgt]
    exact ⟨rfl, fun p hp =>
      mem_cleanup_old_tasks _ now (dictInsert_keys_nodup _ _ _ hnd) p hp⟩
  · intro hle
    rw [if_neg hle]

/-- Witness for C1's amended theorem: a create on a concrete small state
stays below the capacity threshold and runs no eviction. -/
theorem eviction_removes_exactly_truthy_expired_witness :
    (create_task ⟨[], true, false⟩ 10 "id1" "p" "sora-2" none "4" "720x1280" none).2.tasks =
      dictInsert [] "id1"
        (create_task ⟨[], true, false⟩ 10 "id1" "p" "sora-2" none "4" "720x1280" none).1 :=
  (eviction_removes_exactly_truthy_expired ⟨[], true, false⟩ 10 "id1" "p" "sora-2"
    none "4" "720x1280" none _ rfl (by decide)).2 (by decide)

/-- The descending comparator of `sort_tasks` is transitive. -/
theorem descLe_trans (a b c : VideoTask) :
    (decide (b.created_at ≤ a.created_at)) = true →
    (decide (c.created_at ≤ b.created_at)) = true →
    (decide (c.created_at ≤ a.created_at)) = true := by
  simp only [decide_eq_true_eq]
  omega

/-- The descending comparator of `sort_tasks` is total. -/
theorem descLe_total (a b : VideoTask) :
    ((decide (b.created_at ≤ a.created_at)) ||
      (decide (a.created_at ≤ b.created_at))) = true := by
  rcases Nat.le_total b.created_at a.created_at with h | h <;> simp [h]

/-- The ascending comparator of `sort_tasks` is transitive. -/
theorem ascLe_trans (a b c : VideoTask) :
    (decide (a.created_at ≤ b.created_at)) = true →
    (decide (b.created_at ≤ c.created_at)) = true →
    (decide (a.created_at ≤ c.created_at)) = true := by
  simp only [decide_eq_true_eq]
  omega

/-- The ascending comparator of `sort_tasks` is total. -/
theorem ascLe_total (a b : VideoTask) :
    ((decide (a.created_at ≤ b.created_at)) ||
      (decide (b.created_at ≤ a.created_at))) = true := by
  rcases Nat.le_total a.created_at b.created_at with h | h <;> simp [h]

/-- Counterexample to C2 as stated: with the order argument `"oldest"` —
neither `"asc"` nor `"desc"` — the returned `created_at` values are not
non-increasing: the code sorts ascending for every order value other than
`"desc"`, not descending. -/
theorem list_order_fallback_ascending_counterexample :
    ¬ ((list_tasks
        ⟨[("a", { id := "a", created_at := 1 }), ("b", { id := "b", created_at := 2 })], true, false⟩
        20 none "oldest" none).1.map VideoTask.created_at).Pairwise
      (fun x y : Nat => x ≥ y) := by
  have hsort : sort_tasks
      [({ id := "a", created_at := 1 } : VideoTask), { id := "b", created_at := 2 }] "oldest" =
      [({ id := "a", created_at := 1 } : VideoTask), { id := "b", created_at := 2 }] := by
    unfold sort_tasks
    rw [if_neg (by decide)]
    exact List.mergeSort_of_sorted (by simp)
  have hpage : (list_tasks
      ⟨[("a", { id := "a", created_at := 1 }), ("b", { id := "b", created_at := 2 })], true, false⟩
      20 none "oldest" none).1 =
      [({ id := "a", created_at := 1 } : VideoTask), { id := "b", created_at := 2 }] := by
    show (sort_tasks (working_set
      [({ id := "a", created_at := 1 } : VideoTask), { id := "b", created_at := 2 }] none)
      "oldest").take 20 =
      [({ id := "a", created_at := 1 } : VideoTask), { id := "b", created_at := 2 }]
    rw [show working_set
      [({ id := "a", created_at := 1 } : VideoTask), { id := "b", created_at := 2 }] none =
      [({ id := "a", created_at := 1 } : VideoTask), { id := "b", created_at := 2 }] from rfl,
      hsort]
    rfl
  rw [hpage]
  decide

/-- C2 (amended): `list_tasks` sorts the user-filtered working set by
`created_at`, descending exactly when the lowercased order argument equals
`"desc"` and ascending for every other value (including `"asc"`); ties are
broken stably, keeping insertion order. The returned page inherits the
ordering. -/
theorem list_order_and_stability (st : ServiceState) (limit : Nat) (order : String)
    (user : Option String) :
    ((strLower order == "desc") = true →
      (list_tasks st limit none order user).1.Pairwise
        (fun a b => b.created_at ≤ a.created_at)) ∧
    ((strLower order == "desc") = false →
      (list_tasks st limit none order user).1.Pairwise
        (fun a b => a.created_at ≤ b.created_at)) ∧
    (∀ a b, [a, b].Sublist (working_set (st.tasks.map Prod.snd) user) →
      a.created_at = b.created_at →
      [a, b].Sublist (sort_tasks (working_set (st.tasks.map Prod.snd) user) order)) := by
  have hpage : (list_tasks st limit none order user).1 =
      (sort_tasks (working_set (st.tasks.map Prod.snd) user) order).take limit := rfl
  refine ⟨?_, ?_, ?_⟩
  · intro hdesc
    rw [hpage]
    have hsort : sort_tasks (working_set (st.tasks.map Prod.snd) user) order =
        (working_set (st.tasks.map Prod.snd) user).mergeSort
          (fun a b => decide (b.created_at ≤ a.created_at)) := by
      unfold sort_tasks
      rw [if_pos hdesc]
    rw [hsort]
    refine List.Pairwise.sublist (List.take_sublist _ _) ?_
    exact (List.sorted_mergeSort descLe_trans descLe_total _).imp
      (fun h => by simpa using h)
  · intro hasc
    rw [hpage]
    have hsort : sort_tasks (working_set (st.tasks.map Prod.snd) user) order =
        (working_set (st.tasks.map Prod.snd) user).mergeSort
          (fun a b => decide (a.created_at ≤ b.created_at)) := by
      unfold sort_tasks
      rw [if_neg (by simp [hasc])]
    rw [hsort]
    refine List.Pairwise.sublist (List.take_sublist _ _) ?_
    exact (List.sorted_mergeSort ascLe_trans ascLe_total _).imp
      (fun h => by simpa using h)
  · intro a b hsub heq
    unfold sort_tasks
    by_cases hdesc : (strLower order == "desc") = true
    · rw [if_pos hdesc]
      exact List.pair_sublist_mergeSort descLe_trans descLe_total
        (by simp [heq]) hsub
    · rw [if_neg hdesc]
      exact List.pair_sublist_mergeSort ascLe_trans ascLe_total
        (by simp [heq]) hsub

/-- Witness for C2's amended theorem at a concrete two-task state with
order `"desc"`. -/
theorem list_order_and_stability_witness :
    (list_tasks
      ⟨[("a", { id := "a", created_at := 1 }), ("b", { id := "b", created_at := 2 })], true, false⟩
      20 none "desc" none).1.Pairwise (fun a b => b.created_at ≤ a.created_at) :=
  (list_order_and_stability
    ⟨[("a", { id := "a", created_at := 1 }), ("b", { id := "b", created_at := 2 })], true, false⟩
    20 "desc" none).1 (by decide)

/-- The cursor loop yields the empty list when no task has the cursor id. -/
theorem drop_through_id_of_not_mem (tasks : List VideoTask) (a : String)
    (h : ∀ t ∈ tasks, t.id ≠ a) : drop_through_id tasks a = [] := by
  induction tasks with
  | nil => rfl
  | cons t rest ih =>
    unfold drop_through_id
    rw [if_neg (by simpa using h t (List.mem_cons_self t rest))]
    exact ih fun q hq => h q (List.mem_cons_of_mem t hq)

/-- The cursor loop drops everything up to and including the first task
with the cursor id. -/
theorem drop_through_id_append (pre : List VideoTask) (x : VideoTask)
    (suf : List VideoTask) (a : String) (hx : x.id = a)
    (hpre : ∀ t ∈ pre, t.id ≠ a) :
    drop_through_id (pre ++ x :: suf) a = suf := by
  induction pre with
  | nil =>
    rw [List.nil_append]
    show (if (x.id == a) = true then suf else drop_through_id suf a) = suf
    rw [if_pos (by simp [hx])]
  | cons t rest ih =>
    rw [List.cons_append]
    show (if (t.id == a) = true then rest ++ x :: suf
      else drop_through_id (rest ++ x :: suf) a) = suf
    rw [if_neg (by simpa using hpre t (List.mem_cons_self t rest))]
    exact ih fun q hq => hpre q (List.mem_cons_of_mem t hq)

/-- C3: with a nonempty cursor id, the returned page is empty when no task
of the sorted, user-filtered working set carries that id (no error is
raised: the function is total), and otherwise — splitting the sorted
working set around the first occurrence of the cursor id — the page is
exactly the truncated strict suffix after that occurrence; in particular,
since a mapping's ids repeat nowhere, the cursor record itself is never in
the page. -/
theorem list_after_cursor_correct (st : ServiceState) (limit : Nat)
    (order : String) (user : Option String) (a : String) (ha : ¬ a = "") :
    ((∀ t ∈ sort_tasks (working_set (st.tasks.map Prod.snd) user) order, t.id ≠ a) →
      (list_tasks st limit (some a) order user).1 = []) ∧
    (∀ pre x suf,
      sort_tasks (working_set (st.tasks.map Prod.snd) user) order = pre ++ x :: suf →
      x.id = a → (∀ t ∈ pre, t.id ≠ a) →
      (list_tasks st limit (some a) order user).1 = suf.take limit ∧
      (((sort_tasks (working_set (st.tasks.map Prod.snd) user) order).map
          VideoTask.id).Nodup →
        ∀ t ∈ (list_tasks st limit (some a) order user).1, t.id ≠ a)) := by
  have hpage : (list_tasks st limit (some a) order user).1 =
      (drop_through_id (sort_tasks (working_set (st.tasks.map Prod.snd) user) order)
        a).take limit := by
    show ((if a = "" then sort_tasks (working_set (st.tasks.map Prod.snd) user) order
      else drop_through_id
        (sort_tasks (working_set (st.tasks.map Prod.snd) user) order) a).take limit) = _
    rw [if_neg ha]
  constructor
  · intro hall
    rw [hpage, drop_through_id_of_not_mem _ _ hall, List.take_nil]
  · intro pre x suf hsplit hx hpre
    have hd : drop_through_id
        (sort_tasks (working_set (st.tasks.map Prod.snd) user) order) a = suf := by
      rw [hsplit]
      exact drop_through_id_append pre x suf a hx hpre
    refine ⟨by rw [hpage, hd], fun hnd t hm hta => ?_⟩
    rw [hpage, hd] at hm
    have ht : t ∈ suf := List.mem_of_mem_take hm
    rw [hsplit, List.map_append, List.map_cons] at hnd
    have hx_not : x.id ∉ suf.map VideoTask.id :=
      (List.nodup_cons.mp (List.Nodup.of_append_right hnd)).1
    exact hx_not (hx ▸ hta ▸ List.mem_map_of_mem VideoTask.id ht)

/-- Witness for C3 at a concrete two-task state: paging after the newest
task returns exactly the older one. -/
theorem list_after_cursor_correct_witness :
    (list_tasks
      ⟨[("b", { id := "b", created_at := 2 }), ("a", { id := "a", created_at := 1 })], true, false⟩
      20 (some "b") "desc" none).1 =
      List.take 20 [({ id := "a", created_at := 1 } : VideoTask)] := by
  have hsort : sort_tasks (working_set (List.map Prod.snd
      [("b", ({ id := "b", created_at := 2 } : VideoTask)),
        ("a", { id := "a", created_at := 1 })]) none) "desc" =
      [({ id := "b", created_at := 2 } : VideoTask), { id := "a", created_at := 1 }] := by
    show sort_tasks
      [({ id := "b", created_at := 2 } : VideoTask), { id := "a", created_at := 1 }] "desc" = _
    unfold sort_tasks
    rw [if_pos (by decide)]
    exact List.mergeSort_of_sorted (by simp)
  exact ((list_after_cursor_correct
    ⟨[("b", { id := "b", created_at := 2 }), ("a", { id := "a", created_at := 1 })], true, false⟩
    20 "desc" none "b" (by decide)).2
    [] ({ id := "b", created_at := 2 } : VideoTask) [{ id := "a", created_at := 1 }]
    (by rw [hsort]; rfl) rfl (by decide)).1
